import Mathlib

/-!
Verification of the quotation / price-calculator app (pricing engine,
quotation form state, PDF totals).  Prices are modelled as rationals
(JavaScript numbers overflow/rounding is irrelevant at these magnitudes);
strings are modelled as Lean strings with character-list operations that
mirror the JavaScript string methods used by the code
(`String.prototype.includes`, `replace`, `parseFloat`).
-/

namespace Apps

/-! ### JavaScript string primitives -/

/-- `startsWithL needle hay` : `hay` begins with `needle` (character lists). -/
def startsWithL : List Char → List Char → Bool
  | [], _ => true
  | _ :: _, [] => false
  | a :: as, b :: bs => a == b && startsWithL as bs

/-- `hasSub needle hay` : `needle` occurs as a contiguous substring of `hay`. -/
def hasSub (needle : List Char) : List Char → Bool
  | [] => needle.isEmpty
  | c :: t => startsWithL needle (c :: t) || hasSub needle t

/-- Model of JavaScript `hay.includes(needle)`. -/
def jsIncludes (hay needle : String) : Bool :=
  hasSub needle.data hay.data

/-- ASCII lower-casing of one character (model of `toLowerCase` on the
characters relevant to the keyword checks in the source, all ASCII). -/
def lowerAsciiChar (c : Char) : Char :=
  if 65 ≤ c.toNat ∧ c.toNat ≤ 90 then Char.ofNat (c.toNat + 32) else c

/-- ASCII upper-casing of one character (model of `toUpperCase` on the
ASCII keyword checks in the source). -/
def upperAsciiChar (c : Char) : Char :=
  if 97 ≤ c.toNat ∧ c.toNat ≤ 122 then Char.ofNat (c.toNat - 32) else c

/-- Model of `s.toLowerCase()` restricted to ASCII letters. -/
def jsToLower (s : String) : String :=
  ⟨s.data.map lowerAsciiChar⟩

/-- Model of `s.toUpperCase()` restricted to ASCII letters. -/
def jsToUpper (s : String) : String :=
  ⟨s.data.map upperAsciiChar⟩

/-- Model of `s.replace(/[–—]/g, '-')` : en/em dashes become ASCII hyphens. -/
def normalizeDashes (s : String) : String :=
  ⟨s.data.map (fun c => if c = '–' ∨ c = '—' then '-' else c)⟩

/-! ### Price-string parsing (`parseFloat(price.replace(/[^\d.,]/g, '').replace(',', '.')) || 0`) -/

/-- Model of `s.replace(/[^\d.,]/g, '')` : keep only ASCII digits, dots
and commas. -/
def stripToNumeric (s : String) : List Char :=
  s.data.filter (fun c => c.isDigit || c = '.' || c = ',')

/-- Model of `s.replace(',', '.')` with a string pattern: only the FIRST
comma is replaced by a dot. -/
def replaceFirstComma : List Char → List Char
  | [] => []
  | c :: t => if c = ',' then '.' :: t else c :: replaceFirstComma t

/-- Numeric value of a digit list read left to right. -/
def digitsVal : List Char → Nat
  | [] => 0
  | c :: t => digitsVal t + c.toNat % 48 * 10 ^ t.length

/-- Longest leading run of ASCII digits, and the rest. -/
def takeDigits (cs : List Char) : List Char × List Char :=
  (cs.takeWhile Char.isDigit, cs.dropWhile Char.isDigit)

/-- Value of `<intDigits>.<fracDigits>`; both parts empty means the literal
is invalid, `parseFloat` gives `NaN` and `|| 0` turns that into `0`. -/
def parseFrac (d1 d2 : List Char) : ℚ :=
  if d1.isEmpty && d2.isEmpty then 0
  else (digitsVal d1 : ℚ) + (digitsVal d2 : ℚ) / (10 : ℚ) ^ d2.length

/-- Continue a decimal literal after the leading digits `d1`: a dot starts
a fractional part, anything else ends the literal. -/
def parseAfterInt (d1 : List Char) : List Char → ℚ
  | '.' :: rest => parseFrac d1 (takeDigits rest).1
  | _ => (digitsVal d1 : ℚ)

/-- Model of JavaScript `parseFloat(cs) || 0` on a character list known to
contain only digits, dots and commas (the output of the strip/replace
normalization): parse the longest leading decimal literal; an input with
no leading literal gives `NaN`, which `|| 0` turns into `0`. -/
def jsParseFloatOr0 (cs : List Char) : ℚ :=
  parseAfterInt (takeDigits cs).1 (takeDigits cs).2

/-- The parse-time normalization applied to every color `price` string in
the source: `parseFloat(price.replace(/[^\d.,]/g, '').replace(',', '.')) || 0`. -/
def parsePriceString (s : String) : ℚ :=
  jsParseFloatOr0 (replaceFirstComma (stripToNumeric s))

/-! ### Pricing multipliers (`src/utils/priceCalculations.ts`) -/

/-- `getThicknessPriceMultiplier` from `priceCalculations.ts`: bucketed
substring match on the dash-normalized thickness label. -/
def getThicknessPriceMultiplier (thickness : String) : ℚ :=
  let n := normalizeDashes thickness
  if jsIncludes n "16-20" || jsIncludes n "16–20" then 145/100
  else if jsIncludes n "11-15" || jsIncludes n "11–15" then 130/100
  else if jsIncludes n "9-10" || jsIncludes n "9–10" then 120/100
  else if jsIncludes n "7-8" || jsIncludes n "7–8" then 115/100
  else if jsIncludes n "5-6" || jsIncludes n "5–6" then 110/100
  else if jsIncludes n "4" then 1
  else if jsIncludes n "1.5" || jsIncludes n "1.2" || jsIncludes n "2" then 90/100
  else 1

/-- `getDepthPriceMultiplier` from `priceCalculations.ts`: bucketed
substring match on the depth label (no dash normalization in the source). -/
def getDepthPriceMultiplier (depth : String) : ℚ :=
  if jsIncludes depth "61" || jsIncludes depth "65" then 1
  else if jsIncludes depth "70" then 1165/1000
  else if jsIncludes depth "80" then 1335/1000
  else if jsIncludes depth "90" then 2
  else if jsIncludes depth "100" || jsIncludes depth "110" || jsIncludes depth "120" then 2
  else 1

/-- The depth labels offered by the form (`getDepthOptions` in `App.tsx`):
the Dekton baseline label, the non-Dekton baseline label, and the fixed
larger sizes. -/
def definedDepthLabels : List String :=
  ["61 cm\x27e kadar", "65 cm\x27e kadar", "70 cm", "80 cm", "90 cm",
   "100 cm", "110 cm", "120 cm"]

/-! ### Quotation form data model (the interfaces at the top of `App.tsx`).
Only the price-relevant fields are embedded; the catalog state held in
React state (`products`, `allColors`, `allLaborServices`) is passed to the
operations explicitly, mirroring how the source closures capture it. -/

structure DepthGroup where
  id : String
  derinlik : String
  mtul : ℚ
  birimFiyati : ℚ
  toplamFiyat : ℚ
deriving DecidableEq

structure PanelGroup where
  id : String
  metrekare : ℚ
  birimFiyati : ℚ
  toplamFiyat : ℚ
deriving DecidableEq

structure DavlumbazGroup where
  id : String
  metrekare : ℚ
  birimFiyati : ℚ
  toplamFiyat : ℚ
deriving DecidableEq

structure SupurgelikData where
  tip : String
  mtul : ℚ
  birimFiyati : ℚ
  toplamFiyat : ℚ
deriving DecidableEq

structure EviyeData where
  tip : String
  toplamFiyat : ℚ
deriving DecidableEq

structure SpecialDetailData where
  tip : String
  mtul : ℚ
  birimFiyati : ℚ
  toplamFiyat : ℚ
deriving DecidableEq

structure LaborServiceItem where
  name : String
  isActive : Bool
  price : ℚ
deriving DecidableEq

structure LaborData where
  services : List LaborServiceItem
  totalPrice : ℚ
deriving DecidableEq

structure DiscountData where
  totalListDiscount : ℚ
  depthPanelDiscount : ℚ
deriving DecidableEq

structure FormData where
  tezgahKalinlik : String
  supurgelik : SupurgelikData
  eviye : EviyeData
  specialDetail : SpecialDetailData
  depthGroups : List DepthGroup
  panelGroups : List PanelGroup
  davlumbazGroups : List DavlumbazGroup
  labor : LaborData
  discounts : DiscountData
deriving DecidableEq

structure Product where
  id : String
  name : String
deriving DecidableEq

/-- Truthiness of `selectedColor?.price` in the source: the selected color
exists and its price string is non-empty. -/
def priceIsSet : Option String → Bool
  | none => false
  | some p => !p.isEmpty

/-! ### Aggregate totals (`App.tsx`) -/

/-- `reduce((total, group) => total + group.toplamFiyat, 0)` over depth groups. -/
def sumDepthTotals (gs : List DepthGroup) : ℚ :=
  gs.foldl (fun t g => t + g.toplamFiyat) 0

/-- `reduce((total, group) => total + group.toplamFiyat, 0)` over panel groups. -/
def sumPanelTotals (gs : List PanelGroup) : ℚ :=
  gs.foldl (fun t g => t + g.toplamFiyat) 0

/-- `reduce((total, group) => total + group.toplamFiyat, 0)` over hood-panel groups. -/
def sumDavlumbazTotals (gs : List DavlumbazGroup) : ℚ :=
  gs.foldl (fun t g => t + g.toplamFiyat) 0

/-- `calculateTotalListPrice` from `App.tsx`: the sum of all section totals. -/
def calculateTotalListPrice (f : FormData) : ℚ :=
  sumDepthTotals f.depthGroups + sumPanelTotals f.panelGroups +
    sumDavlumbazTotals f.davlumbazGroups + f.supurgelik.toplamFiyat +
    f.eviye.toplamFiyat + f.specialDetail.toplamFiyat + f.labor.totalPrice

/-- `calculateDepthPanelTotal` from `App.tsx`: depth + panel + hood-panel +
baseboard totals only (the base of the second discount). -/
def calculateDepthPanelTotal (f : FormData) : ℚ :=
  sumDepthTotals f.depthGroups + sumPanelTotals f.panelGroups +
    sumDavlumbazTotals f.davlumbazGroups + f.supurgelik.toplamFiyat

/-- `calculateFinalPrice` from `App.tsx`: first discount on the whole list
price, second discount on the depth/panel/hood/baseboard subtotal,
floored at 0 by `Math.max`. -/
def calculateFinalPrice (f : FormData) : ℚ :=
  let totalListPrice := calculateTotalListPrice f
  let depthPanelTotal := calculateDepthPanelTotal f
  let afterFirstDiscount := totalListPrice * (1 - f.discounts.totalListDiscount / 100)
  let secondDiscountAmount := depthPanelTotal * (f.discounts.depthPanelDiscount / 100)
  max 0 (afterFirstDiscount - secondDiscountAmount)

/-! ### PDF totals (`src/services/pdfService.ts`, pricing section).
The PDF renderer recomputes the totals from the exported snapshot with its
own code; we embed that computation separately. -/

/-- The `baseTotal` of the PDF renderer: same seven section sums. -/
def pdfBaseTotal (f : FormData) : ℚ :=
  sumDepthTotals f.depthGroups + sumPanelTotals f.panelGroups +
    sumDavlumbazTotals f.davlumbazGroups + f.supurgelik.toplamFiyat +
    f.eviye.toplamFiyat + f.specialDetail.toplamFiyat + f.labor.totalPrice

/-- The `discountedTotal` of the PDF renderer: each discount line is subtracted
only when its percentage is strictly positive. -/
def pdfDiscountedTotal (f : FormData) : ℚ :=
  let baseTotal := pdfBaseTotal f
  let afterFirst :=
    if 0 < f.discounts.totalListDiscount then
      baseTotal - baseTotal * (f.discounts.totalListDiscount / 100)
    else baseTotal
  if 0 < f.discounts.depthPanelDiscount then
    let depthPanelTotal :=
      sumDepthTotals f.depthGroups + sumPanelTotals f.panelGroups +
        sumDavlumbazTotals f.davlumbazGroups + f.supurgelik.toplamFiyat
    afterFirst - depthPanelTotal * (f.discounts.depthPanelDiscount / 100)
  else afterFirst

/-- The VAT line of the PDF renderer and grand total:
`kdvAmount = max(0, discountedTotal) * 20/100`,
`finalTotal = max(0, discountedTotal) + kdvAmount`. -/
def pdfFinalTotal (f : FormData) : ℚ :=
  let discounted := max 0 (pdfDiscountedTotal f)
  let kdvAmount := discounted * (20 / 100)
  discounted + kdvAmount

/-! ### Discount edits (`updateDiscountImmediate` in `App.tsx`) -/

inductive DiscountField where
  | totalList
  | depthPanel
deriving DecidableEq

/-- `updateDiscountImmediate`: the parsed numeric value is clamped to be
non-negative with `Math.max(0, numericValue)` before being stored. -/
def updateDiscountImmediate (f : FormData) (field : DiscountField) (v : ℚ) : FormData :=
  match field with
  | .totalList =>
      { f with discounts := { f.discounts with totalListDiscount := max 0 v } }
  | .depthPanel =>
      { f with discounts := { f.discounts with depthPanelDiscount := max 0 v } }

/-! ### Depth-group mutations (`App.tsx`) -/

/-- The two fields of a depth group edited through `updateDepthGroup`. -/
inductive DepthField where
  | derinlik (v : String)
  | mtul (v : ℚ)
deriving DecidableEq

/-- Body of the `map` inside `updateDepthGroup`, applied to the group whose
id matches: set the field; on a `derinlik` edit recompute `birimFiyati`
from the price of the selected color × depth multiplier × thickness multiplier
(0 when no color price); on either edit recompute
`toplamFiyat = mtul * birimFiyati`. -/
def updateDepthGroupItem (colorPrice : Option String) (tezgahKalinlik : String)
    (g : DepthGroup) (field : DepthField) : DepthGroup :=
  match field with
  | .derinlik v =>
      let updated := { g with derinlik := v }
      let updated :=
        if priceIsSet colorPrice then
          { updated with birimFiyati :=
              parsePriceString (colorPrice.getD "") * getDepthPriceMultiplier v *
                getThicknessPriceMultiplier tezgahKalinlik }
        else { updated with birimFiyati := 0 }
      { updated with toplamFiyat := updated.mtul * updated.birimFiyati }
  | .mtul v =>
      let updated := { g with mtul := v }
      { updated with toplamFiyat := updated.mtul * updated.birimFiyati }

/-- `updateDepthGroup` from `App.tsx`. -/
def updateDepthGroup (colorPrice : Option String) (f : FormData) (gid : String)
    (field : DepthField) : FormData :=
  { f with depthGroups := f.depthGroups.map fun g =>
      if g.id = gid then updateDepthGroupItem colorPrice f.tezgahKalinlik g field else g }

/-- `addDepthGroup` from `App.tsx`: append an empty group only while the
list has fewer than 5 entries. -/
def addDepthGroup (f : FormData) (newId : String) : FormData :=
  if f.depthGroups.length < 5 then
    { f with depthGroups :=
        f.depthGroups ++ [{ id := newId, derinlik := "", mtul := 0,
                            birimFiyati := 0, toplamFiyat := 0 }] }
  else f

/-! ### Panel and hood-panel mutations (`App.tsx`) -/

/-- The two fields of a panel group edited through `updatePanelGroup`. -/
inductive PanelField where
  | metrekare (v : ℚ)
  | birimFiyati (v : ℚ)
deriving DecidableEq

/-- The unit price a new panel / hood-panel group gets from the selected
color: base price × 1.25, or 0 when no color price is available. -/
def panelUnitPrice (colorPrice : Option String) : ℚ :=
  if priceIsSet colorPrice then parsePriceString (colorPrice.getD "") * (125 / 100) else 0

/-- Body of the `map` inside `updatePanelGroup`: set the field; on a
`metrekare` edit with a still-unset unit price, populate `birimFiyati`
from the base price of the color × 1.25; on either edit recompute
`toplamFiyat = metrekare * birimFiyati`. -/
def updatePanelGroupItem (colorPrice : Option String) (g : PanelGroup)
    (field : PanelField) : PanelGroup :=
  match field with
  | .metrekare v =>
      let updated := { g with metrekare := v }
      let updated : PanelGroup :=
        if updated.birimFiyati = 0 ∧ priceIsSet colorPrice = true then
          { updated with birimFiyati := parsePriceString (colorPrice.getD "") * (125 / 100) }
        else updated
      { updated with toplamFiyat := updated.metrekare * updated.birimFiyati }
  | .birimFiyati v =>
      let updated := { g with birimFiyati := v }
      { updated with toplamFiyat := updated.metrekare * updated.birimFiyati }

/-- `updatePanelGroup` from `App.tsx`. -/
def updatePanelGroup (colorPrice : Option String) (f : FormData) (gid : String)
    (field : PanelField) : FormData :=
  { f with panelGroups := f.panelGroups.map fun g =>
      if g.id = gid then updatePanelGroupItem colorPrice g field else g }

/-- `addPanelGroup` from `App.tsx`: early return at 3 panels, otherwise
append a group whose unit price comes from the selected color × 1.25. -/
def addPanelGroup (colorPrice : Option String) (f : FormData) (newId : String) : FormData :=
  if 3 ≤ f.panelGroups.length then f
  else
    { f with panelGroups :=
        f.panelGroups ++ [{ id := newId, metrekare := 0,
                            birimFiyati := panelUnitPrice colorPrice, toplamFiyat := 0 }] }

/-- Body of the `map` inside `updateDavlumbazGroup` (same logic as panels). -/
def updateDavlumbazGroupItem (colorPrice : Option String) (g : DavlumbazGroup)
    (field : PanelField) : DavlumbazGroup :=
  match field with
  | .metrekare v =>
      let updated := { g with metrekare := v }
      let updated : DavlumbazGroup :=
        if updated.birimFiyati = 0 ∧ priceIsSet colorPrice = true then
          { updated with birimFiyati := parsePriceString (colorPrice.getD "") * (125 / 100) }
        else updated
      { updated with toplamFiyat := updated.metrekare * updated.birimFiyati }
  | .birimFiyati v =>
      let updated := { g with birimFiyati := v }
      { updated with toplamFiyat := updated.metrekare * updated.birimFiyati }

/-- `updateDavlumbazGroup` from `App.tsx`. -/
def updateDavlumbazGroup (colorPrice : Option String) (f : FormData) (gid : String)
    (field : PanelField) : FormData :=
  { f with davlumbazGroups := f.davlumbazGroups.map fun g =>
      if g.id = gid then updateDavlumbazGroupItem colorPrice g field else g }

/-- `addDavlumbazGroup` from `App.tsx`: early return at 3 hood panels,
otherwise append a group priced from the selected color × 1.25. -/
def addDavlumbazGroup (colorPrice : Option String) (f : FormData) (newId : String) : FormData :=
  if 3 ≤ f.davlumbazGroups.length then f
  else
    { f with davlumbazGroups :=
        f.davlumbazGroups ++ [{ id := newId, metrekare := 0,
                                birimFiyati := panelUnitPrice colorPrice, toplamFiyat := 0 }] }

/-! ### Skirting (süpürgelik) pricing (`App.tsx`) -/

/-- `getAutomaticSkirtingBand` from `App.tsx`: maps the front-edge
thickness label to a skirting height band by substring matching on the
dash-normalized label, defaulting to the lowest band. -/
def getAutomaticSkirtingBand (thickness : String) : String :=
  let n := normalizeDashes thickness
  if jsIncludes n "4" || jsIncludes (jsToUpper n) "STANDART" ||
      jsIncludes n "5-6" || jsIncludes n "5\u2013" then "H:05\u2013H:10"
  else if jsIncludes n "7-8" || jsIncludes n "7\u2013" ||
      jsIncludes n "9-10" || jsIncludes n "9\u2013" then "H:11\u2013H:20"
  else if jsIncludes n "11-15" || jsIncludes n "11\u2013" then "H:11\u2013H:20"
  else if jsIncludes n "16-20" || jsIncludes n "16\u2013" then "H:21\u2013H:30"
  else "H:05\u2013H:10"

/-- The four skirting band options of the form (`supurgelikOptions` minus
the placeholder). -/
def skirtingBands : List String :=
  ["H:05\u2013H:10", "H:11\u2013H:20", "H:21\u2013H:30", "H:31 \u2013 (+)"]

/-- `getSupurgelikPrice` from `App.tsx`: each band is priced as a fraction
of the unit price at h:1.5 cm thickness (base price × the 1.5 cm thickness
multiplier); 0 for the placeholder / empty selection or when no color
price is available. -/
def getSupurgelikPrice (colorPrice : Option String) (tip : String) : ℚ :=
  if tip = "" ∨ tip = "LÜTFEN SEÇİN" then 0
  else if priceIsSet colorPrice then
    let basePrice := parsePriceString (colorPrice.getD "")
    let h15cmPrice := basePrice * getThicknessPriceMultiplier "h:1.5 cm"
    if tip = "H:05\u2013H:10" then h15cmPrice / 6
    else if tip = "H:11\u2013H:20" then h15cmPrice / 3
    else if tip = "H:21\u2013H:30" then h15cmPrice / 2
    else if tip = "H:31 \u2013 (+)" then h15cmPrice
    else 0
  else 0

/-- The two fields of the skirting section edited through `updateSupurgelik`. -/
inductive SupurgelikField where
  | tip (v : String)
  | mtul (v : ℚ)
deriving DecidableEq

/-- `updateSupurgelik` from `App.tsx`: a `tip` edit re-derives the unit
price and the total, an `mtul` edit re-derives the total. -/
def updateSupurgelik (colorPrice : Option String) (f : FormData)
    (field : SupurgelikField) : FormData :=
  match field with
  | .tip v =>
      let updated := { f.supurgelik with tip := v }
      let updated := { updated with birimFiyati := getSupurgelikPrice colorPrice v }
      { f with supurgelik := { updated with toplamFiyat := updated.mtul * updated.birimFiyati } }
  | .mtul v =>
      let updated := { f.supurgelik with mtul := v }
      { f with supurgelik := { updated with toplamFiyat := v * updated.birimFiyati } }

/-! ### Special-detail and sink pricing (`App.tsx`) -/

/-- `getSpecialDetailPrice` from `App.tsx`: fixed flat TRY amounts per
detail type, not derived from the base price of the color. -/
def getSpecialDetailPrice (tip : String) : ℚ :=
  if tip = "" ∨ tip = "Lütfen Seçin" then 0
  else if tip = "Profil" then 180
  else if tip = "Hera" then 220
  else if tip = "Hera Klasik" then 200
  else if tip = "Trio" then 280
  else if tip = "Country" then 240
  else if tip = "Balık Sırtı" then 260
  else if tip = "M20" then 210
  else if tip = "MQ40" then 300
  else if tip = "U40" then 320
  else if tip = "PİRAMİT" then 250
  else 0

/-- The two fields of the special-detail section edited through
`updateSpecialDetail`. -/
inductive SpecialDetailField where
  | tip (v : String)
  | mtul (v : ℚ)
deriving DecidableEq

/-- `updateSpecialDetail` from `App.tsx`. -/
def updateSpecialDetail (f : FormData) (field : SpecialDetailField) : FormData :=
  match field with
  | .tip v =>
      let updated := { f.specialDetail with tip := v }
      let updated := { updated with birimFiyati := getSpecialDetailPrice v }
      { f with specialDetail := { updated with toplamFiyat := updated.mtul * updated.birimFiyati } }
  | .mtul v =>
      let updated := { f.specialDetail with mtul := v }
      { f with specialDetail := { updated with toplamFiyat := v * updated.birimFiyati } }

/-- `getEviyePrice` from `App.tsx`: fixed flat TRY amounts per sink size,
not derived from the base price of the color. -/
def getEviyePrice (tip : String) : ℚ :=
  if tip = "40 X 40 X h18" then 1500
  else if tip = "50 X 40 X h18" then 1800
  else if tip = "60 X 40 X h18" then 2100
  else if tip = "70 X 40 X h23" then 2500
  else if tip = "80 X 40 X h23" then 2800
  else 0

/-- `updateEviye` from `App.tsx` on a `tip` edit: the section total is the
flat price of the selected sink. -/
def updateEviyeTip (f : FormData) (v : String) : FormData :=
  { f with eviye := { tip := v, toplamFiyat := getEviyePrice v } }

/-! ### Labor services (`App.tsx`) -/

/-- The fixed labor checklist in the initial form state (`App.tsx`):
every service starts inactive with price 0. -/
def initialLaborServices : List LaborServiceItem :=
  [⟨"TEZGAHA SIFIR EVİYE İŞÇİLİK", false, 0⟩,
   ⟨"TEZGAHA SIFIR OCAK İŞÇİLİK", false, 0⟩,
   ⟨"SU DAMLALIĞI TAKIM FİYATI", false, 0⟩,
   ⟨"ÜSTTEN EVİYE MONTAJ BEDELİ", false, 0⟩,
   ⟨"TEZGAH ALTI LAVABO İŞÇİLİK", false, 0⟩,
   ⟨"TEZGAH ALTI EVİYE İŞÇİLİK", false, 0⟩,
   ⟨"ÇEYREK DAİRE OVAL İŞÇİLİK", false, 0⟩,
   ⟨"YARIM DAİRE OVAL İŞÇİLİK", false, 0⟩]

/-- The initial labor section of the form. -/
def initialLabor : LaborData :=
  { services := initialLaborServices, totalPrice := 0 }

/-- The body of `updateLaborService` applied to the service at the toggled
index: set `isActive`; when toggling on, look the service name up in the
remote catalog snapshot (`allLaborServices`) and take its price if found;
when toggling off, reset the price to 0. -/
def toggleService (catalog : List LaborServiceItem) (s : LaborServiceItem)
    (isActive : Bool) : LaborServiceItem :=
  if isActive then
    match catalog.find? (fun c => c.name == s.name) with
    | some c => { s with isActive := true, price := c.price }
    | none => { s with isActive := true }
  else { s with isActive := false, price := 0 }

/-- `updatedServices[index] = ...` on the copied array: replace the
element at `index`, leaving the rest untouched (the app only calls this
with an index of an existing service). -/
def setServiceAt (catalog : List LaborServiceItem) (isActive : Bool) :
    ℕ → List LaborServiceItem → List LaborServiceItem
  | _, [] => []
  | 0, s :: t => toggleService catalog s isActive :: t
  | n + 1, s :: t => s :: setServiceAt catalog isActive n t

/-- `updatedServices.filter(s => s.isActive).reduce((sum, s) => sum + s.price, 0)`. -/
def laborTotalOf (services : List LaborServiceItem) : ℚ :=
  (services.filter (fun s => s.isActive)).foldl (fun t s => t + s.price) 0

/-- `updateLaborService` from `App.tsx`. -/
def updateLaborService (catalog : List LaborServiceItem) (f : FormData)
    (index : ℕ) (isActive : Bool) : FormData :=
  let services := setServiceAt catalog isActive index f.labor.services
  { f with labor := { services := services, totalPrice := laborTotalOf services } }

/-- The labor-section invariant implicitly maintained by the form: the
stored total is the sum of the active prices, and inactive services carry
price 0. -/
def LaborInv (ld : LaborData) : Prop :=
  ld.totalPrice = laborTotalOf ld.services ∧
  ∀ s ∈ ld.services, s.isActive = false → s.price = 0

/-- A sequence of labor toggles, each with the catalog snapshot visible at
the time of the call. -/
def applyToggles (ops : List (List LaborServiceItem × ℕ × Bool)) (f : FormData) : FormData :=
  ops.foldl (fun g op => updateLaborService op.1 g op.2.1 op.2.2) f

/-! ### Depth-label remapping on product change (`App.tsx`) -/

/-- The Dekton baseline depth label. -/
def d61Label : String := "61 cm\x27e kadar"

/-- The non-Dekton baseline depth label. -/
def d65Label : String := "65 cm\x27e kadar"

/-- `productName.includes("dekton")` on the lower-cased product name. -/
def isDektonName (name : String) : Bool :=
  jsIncludes (jsToLower name) "dekton"

/-- The `map` body of `validateDepthGroups`: swap the 61 cm and 65 cm
baseline labels according to whether the new product is a Dekton product;
every other field of the group is spread through unchanged. -/
def validateDepthGroupsCore (isDekton : Bool) (groups : List DepthGroup) :
    List DepthGroup :=
  groups.map fun g =>
    let newDerinlik :=
      if g.derinlik = d61Label ∧ isDekton = false then d65Label
      else if g.derinlik = d65Label ∧ isDekton = true then d61Label
      else g.derinlik
    { g with derinlik := newDerinlik }

/-- `validateDepthGroups` from `App.tsx`: early return on an empty product
id or an empty group list, otherwise remap using the looked-up
lower-cased product name. -/
def validateDepthGroups (products : List Product) (newProductId : String)
    (groups : List DepthGroup) : List DepthGroup :=
  if newProductId = "" ∨ groups.length = 0 then groups
  else
    let productName := (products.find? (fun p => p.id == newProductId)).elim "" Product.name
    validateDepthGroupsCore (isDektonName productName) groups

/-- The depth-group part of the product-change branch of
`handleInputChange`: remap via `validateDepthGroups`, then zero the
derived prices while keeping the measurements. -/
def productChangeDepthGroups (products : List Product) (newProductId : String)
    (groups : List DepthGroup) : List DepthGroup :=
  (validateDepthGroups products newProductId groups).map fun g =>
    { g with birimFiyati := 0, toplamFiyat := 0 }

/-! ### Concrete instances used by the theorems and witnesses -/

/-- A concrete form state realizing the documented discount scenario:
one depth group totalling 6000 (so `depthPanelTotal = 6000`), a sink
section totalling 4000 (so `listPrice = 10000`), discounts 10% and 5%. -/
def scenarioForm : FormData :=
  { tezgahKalinlik := "h:4 cm"
    supurgelik := { tip := "", mtul := 1, birimFiyati := 0, toplamFiyat := 0 }
    eviye := { tip := "", toplamFiyat := 4000 }
    specialDetail := { tip := "", mtul := 1, birimFiyati := 0, toplamFiyat := 0 }
    depthGroups := [{ id := "depth_1", derinlik := "90 cm", mtul := 3,
                      birimFiyati := 2000, toplamFiyat := 6000 }]
    panelGroups := []
    davlumbazGroups := []
    labor := initialLabor
    discounts := { totalListDiscount := 10, depthPanelDiscount := 5 } }

/-- Replace the discount record of a form state (the stored result of a
discount edit). -/
def setDiscounts (f : FormData) (d : DiscountData) : FormData :=
  { f with discounts := d }

/-- All section totals of the form state are non-negative. -/
def sectionTotalsNonneg (f : FormData) : Prop :=
  (∀ g ∈ f.depthGroups, 0 ≤ g.toplamFiyat) ∧
  (∀ g ∈ f.panelGroups, 0 ≤ g.toplamFiyat) ∧
  (∀ g ∈ f.davlumbazGroups, 0 ≤ g.toplamFiyat) ∧
  0 ≤ f.supurgelik.toplamFiyat ∧ 0 ≤ f.eviye.toplamFiyat ∧
  0 ≤ f.specialDetail.toplamFiyat ∧ 0 ≤ f.labor.totalPrice

/-- A form state whose bounded collections are all at capacity: 5 depth
groups, 3 panel groups, 3 hood-panel groups. -/
def fullForm : FormData :=
  { scenarioForm with
    depthGroups :=
      [{ id := "d1", derinlik := "70 cm", mtul := 1, birimFiyati := 0, toplamFiyat := 0 },
       { id := "d2", derinlik := "70 cm", mtul := 1, birimFiyati := 0, toplamFiyat := 0 },
       { id := "d3", derinlik := "70 cm", mtul := 1, birimFiyati := 0, toplamFiyat := 0 },
       { id := "d4", derinlik := "70 cm", mtul := 1, birimFiyati := 0, toplamFiyat := 0 },
       { id := "d5", derinlik := "70 cm", mtul := 1, birimFiyati := 0, toplamFiyat := 0 }]
    panelGroups :=
      [{ id := "p1", metrekare := 1, birimFiyati := 0, toplamFiyat := 0 },
       { id := "p2", metrekare := 1, birimFiyati := 0, toplamFiyat := 0 },
       { id := "p3", metrekare := 1, birimFiyati := 0, toplamFiyat := 0 }]
    davlumbazGroups :=
      [{ id := "h1", metrekare := 1, birimFiyati := 0, toplamFiyat := 0 },
       { id := "h2", metrekare := 1, birimFiyati := 0, toplamFiyat := 0 },
       { id := "h3", metrekare := 1, birimFiyati := 0, toplamFiyat := 0 }] }

/-- A one-entry remote labor catalog used as a concrete instance. -/
def sheetCatalog : List LaborServiceItem :=
  [{ name := "TEZGAHA SIFIR EVİYE İŞÇİLİK", isActive := false, price := 250 }]

/-- A one-product catalog whose product is Dekton-named. -/
def dektonProducts : List Product :=
  [{ id := "p1", name := "Dekton Ultra" }]

/-- Two concrete depth groups: one on the 65 cm baseline, one at 90 cm. -/
def wGroups : List DepthGroup :=
  [{ id := "g1", derinlik := "65 cm\x27e kadar", mtul := 3, birimFiyati := 10, toplamFiyat := 30 },
   { id := "g2", derinlik := "90 cm", mtul := 2, birimFiyati := 0, toplamFiyat := 0 }]

/-! ## Helper lemmas for the theorems -/

/-- `reduce((t, g) => t + k(g), a)` is `a` plus the sum of the mapped list. -/
theorem foldl_add_eq {α : Type} (k : α → ℚ) (a : ℚ) (gs : List α) :
    gs.foldl (fun t g => t + k g) a = a + (gs.map k).sum := by
  induction gs generalizing a with
  | nil => simp
  | cons g t ih => simp [ih]; ring

theorem sumDepthTotals_nonneg (gs : List DepthGroup)
    (h : ∀ g ∈ gs, 0 ≤ g.toplamFiyat) : 0 ≤ sumDepthTotals gs := by
  rw [sumDepthTotals, foldl_add_eq, zero_add]
  refine List.sum_nonneg ?_
  intro x hx
  obtain ⟨g, hg, rfl⟩ := List.mem_map.mp hx
  exact h g hg

theorem sumPanelTotals_nonneg (gs : List PanelGroup)
    (h : ∀ g ∈ gs, 0 ≤ g.toplamFiyat) : 0 ≤ sumPanelTotals gs := by
  rw [sumPanelTotals, foldl_add_eq, zero_add]
  refine List.sum_nonneg ?_
  intro x hx
  obtain ⟨g, hg, rfl⟩ := List.mem_map.mp hx
  exact h g hg

theorem sumDavlumbazTotals_nonneg (gs : List DavlumbazGroup)
    (h : ∀ g ∈ gs, 0 ≤ g.toplamFiyat) : 0 ≤ sumDavlumbazTotals gs := by
  rw [sumDavlumbazTotals, foldl_add_eq, zero_add]
  refine List.sum_nonneg ?_
  intro x hx
  obtain ⟨g, hg, rfl⟩ := List.mem_map.mp hx
  exact h g hg

theorem totalListPrice_nonneg (f : FormData) (h : sectionTotalsNonneg f) :
    0 ≤ calculateTotalListPrice f := by
  obtain ⟨h1, h2, h3, h4, h5, h6, h7⟩ := h
  have := sumDepthTotals_nonneg f.depthGroups h1
  have := sumPanelTotals_nonneg f.panelGroups h2
  have := sumDavlumbazTotals_nonneg f.davlumbazGroups h3
  rw [calculateTotalListPrice]
  linarith

theorem depthPanelTotal_nonneg (f : FormData) (h : sectionTotalsNonneg f) :
    0 ≤ calculateDepthPanelTotal f := by
  obtain ⟨h1, h2, h3, h4, h5, h6, h7⟩ := h
  have := sumDepthTotals_nonneg f.depthGroups h1
  have := sumPanelTotals_nonneg f.panelGroups h2
  have := sumDavlumbazTotals_nonneg f.davlumbazGroups h3
  rw [calculateDepthPanelTotal]
  linarith

/-! ## Theorems for the claims -/

/-- C1: for every form state with the (always clamped) non-negative
discount percentages, the final discounted price is
`listPrice × (1 − totalListDiscount/100) − depthPanelTotal × (depthPanelDiscount/100)`
floored at 0, and the VAT-inclusive grand total computed by the PDF
renderer is that final price × 1.20; in the documented scenario
(`totalListDiscount = 10`, `depthPanelDiscount = 5`, `listPrice = 10000`,
`depthPanelTotal = 6000`) the final price is 8700 and the grand total
10440. -/
theorem c1_final_price_and_grand_total :
    (∀ f : FormData,
      0 ≤ f.discounts.totalListDiscount → 0 ≤ f.discounts.depthPanelDiscount →
      calculateFinalPrice f =
        max 0 (calculateTotalListPrice f * (1 - f.discounts.totalListDiscount / 100) -
          calculateDepthPanelTotal f * (f.discounts.depthPanelDiscount / 100)) ∧
      pdfFinalTotal f = calculateFinalPrice f * (120 / 100)) ∧
    calculateTotalListPrice scenarioForm = 10000 ∧
    calculateDepthPanelTotal scenarioForm = 6000 ∧
    calculateFinalPrice scenarioForm = 8700 ∧
    pdfFinalTotal scenarioForm = 10440 := by
  have hgen : ∀ f : FormData,
      0 ≤ f.discounts.totalListDiscount → 0 ≤ f.discounts.depthPanelDiscount →
      calculateFinalPrice f =
        max 0 (calculateTotalListPrice f * (1 - f.discounts.totalListDiscount / 100) -
          calculateDepthPanelTotal f * (f.discounts.depthPanelDiscount / 100)) ∧
      pdfFinalTotal f = calculateFinalPrice f * (120 / 100) := by
    intro f h1 h2
    refine ⟨rfl, ?_⟩
    have e1 : pdfBaseTotal f = calculateTotalListPrice f := rfl
    have e2 : sumDepthTotals f.depthGroups + sumPanelTotals f.panelGroups +
        sumDavlumbazTotals f.davlumbazGroups + f.supurgelik.toplamFiyat =
        calculateDepthPanelTotal f := rfl
    have hX : pdfDiscountedTotal f =
        calculateTotalListPrice f * (1 - f.discounts.totalListDiscount / 100) -
          calculateDepthPanelTotal f * (f.discounts.depthPanelDiscount / 100) := by
      rw [pdfDiscountedTotal]
      split_ifs with ha hb hc
      · rw [e1, e2]; ring
      · have h0 : f.discounts.totalListDiscount = 0 := le_antisymm (not_lt.mp hb) h1
        rw [e1, e2, h0]; ring
      · have h0 : f.discounts.depthPanelDiscount = 0 := le_antisymm (not_lt.mp ha) h2
        rw [e1, h0]; ring
      · have h0 : f.discounts.totalListDiscount = 0 := le_antisymm (not_lt.mp hc) h1
        have h0' : f.discounts.depthPanelDiscount = 0 := le_antisymm (not_lt.mp ha) h2
        rw [e1, h0, h0']; ring
    rw [pdfFinalTotal, calculateFinalPrice, hX]
    ring
  have hL : calculateTotalListPrice scenarioForm = 10000 := by
    simp [calculateTotalListPrice, scenarioForm, sumDepthTotals, sumPanelTotals,
      sumDavlumbazTotals, initialLabor]
    norm_num
  have hD : calculateDepthPanelTotal scenarioForm = 6000 := by
    simp [calculateDepthPanelTotal, scenarioForm, sumDepthTotals, sumPanelTotals,
      sumDavlumbazTotals]
  have hF : calculateFinalPrice scenarioForm = 8700 := by
    rw [calculateFinalPrice, hL, hD]
    rw [show scenarioForm.discounts.totalListDiscount = 10 from rfl,
        show scenarioForm.discounts.depthPanelDiscount = 5 from rfl]
    rw [max_eq_right (by norm_num)]
    norm_num
  have hP : pdfFinalTotal scenarioForm = 10440 := by
    rw [(hgen scenarioForm (by norm_num [scenarioForm]) (by norm_num [scenarioForm])).2, hF]
    norm_num
  exact ⟨hgen, hL, hD, hF, hP⟩

/-- Witness for C1 at the concrete scenario state. -/
theorem c1_final_price_and_grand_total_witness :
    0 ≤ scenarioForm.discounts.totalListDiscount ∧
    0 ≤ scenarioForm.discounts.depthPanelDiscount ∧
    pdfFinalTotal scenarioForm = calculateFinalPrice scenarioForm * (120 / 100) :=
  ⟨by decide, by decide,
   (c1_final_price_and_grand_total.1 scenarioForm (by decide) (by decide)).2⟩

/-- C2, original statement refuted: the claim asserts that the price
string "1.234,56" normalizes to the numeric value 1234.56, but the code
keeps the thousands-separator dot, so `parseFloat` stops at the second dot
and yields 1.234. -/
theorem c2_counterexample : ¬ parsePriceString "1.234,56" = 123456 / 100 := by
  have h1 : takeDigits (replaceFirstComma (stripToNumeric "1.234,56")) =
      (['1'], ['.', '2', '3', '4', '.', '5', '6']) := by decide
  have h2 : (takeDigits ['2', '3', '4', '.', '5', '6']).1 = ['2', '3', '4'] := by decide
  rw [parsePriceString, jsParseFloatOr0, h1]
  simp [parseAfterInt, h2, parseFrac]
  norm_num [show digitsVal ['1'] = 1 from by decide,
            show digitsVal ['2', '3', '4'] = 234 from by decide]

/-- C2 (amended): normalization strips every character other than digits,
commas and dots and converts the first comma to a dot; a price string
without a thousands separator, such as "1250,50 TL", normalizes to its
numeric value 1250.5, but "1.234,56" normalizes to 1.234 — the dot
thousands separator survives the strip, and `parseFloat` of "1.234.56"
stops at the second dot. -/
theorem c2_price_normalization :
    parsePriceString "1.234,56" = 1234 / 1000 ∧
    parsePriceString "1250,50 TL" = 125050 / 100 := by
  constructor
  · have h1 : takeDigits (replaceFirstComma (stripToNumeric "1.234,56")) =
        (['1'], ['.', '2', '3', '4', '.', '5', '6']) := by decide
    have h2 : (takeDigits ['2', '3', '4', '.', '5', '6']).1 = ['2', '3', '4'] := by decide
    rw [parsePriceString, jsParseFloatOr0, h1]
    simp [parseAfterInt, h2, parseFrac]
    norm_num [show digitsVal ['1'] = 1 from by decide,
              show digitsVal ['2', '3', '4'] = 234 from by decide]
  · have h1 : takeDigits (replaceFirstComma (stripToNumeric "1250,50 TL")) =
        (['1', '2', '5', '0'], ['.', '5', '0']) := by decide
    have h2 : (takeDigits ['5', '0']).1 = ['5', '0'] := by decide
    rw [parsePriceString, jsParseFloatOr0, h1]
    simp [parseAfterInt, h2, parseFrac]
    norm_num [show digitsVal ['1', '2', '5', '0'] = 1250 from by decide,
              show digitsVal ['5', '0'] = 50 from by decide]

/-- C3, original statement refuted: "170 cm" is not one of the depth
labels in the defined bucket set, yet `getDepthPriceMultiplier` matches
its "70" substring and returns 1.165 instead of the baseline 1.000. -/
theorem c3_counterexample :
    ¬ "170 cm" ∈ definedDepthLabels ∧
    getDepthPriceMultiplier "170 cm" = 1165 / 1000 ∧
    ¬ (1165 / 1000 : ℚ) = 1 := by
  refine ⟨by decide, by simp +decide [getDepthPriceMultiplier], by norm_num⟩

/-- C3 (amended): every depth label of the defined bucket set gets its
documented constant; a label falls back to the baseline 1.000 exactly when
it contains none of the bucket digit substrings (so a label outside the
bucket set that does contain one, such as "170 cm", gets that bucket
constant instead). -/
theorem c3_depth_multiplier_buckets :
    (getDepthPriceMultiplier "61 cm\x27e kadar" = 1 ∧
     getDepthPriceMultiplier "65 cm\x27e kadar" = 1 ∧
     getDepthPriceMultiplier "70 cm" = 1165 / 1000 ∧
     getDepthPriceMultiplier "80 cm" = 1335 / 1000 ∧
     getDepthPriceMultiplier "90 cm" = 2 ∧
     getDepthPriceMultiplier "100 cm" = 2 ∧
     getDepthPriceMultiplier "110 cm" = 2 ∧
     getDepthPriceMultiplier "120 cm" = 2) ∧
    ∀ d : String,
      (∀ p ∈ ["61", "65", "70", "80", "90", "100", "110", "120"], jsIncludes d p = false) →
      getDepthPriceMultiplier d = 1 := by
  constructor
  · refine ⟨?_, ?_, ?_, ?_, ?_, ?_, ?_, ?_⟩ <;> simp +decide [getDepthPriceMultiplier]
  · intro d h
    simp only [List.mem_cons, List.not_mem_nil, or_false, forall_eq_or_imp, forall_eq] at h
    obtain ⟨h61, h65, h70, h80, h90, h100, h110, h120⟩ := h
    simp [getDepthPriceMultiplier, h61, h65, h70, h80, h90, h100, h110, h120]

/-- Witness for the amended C3 default clause at the concrete label
"45 cm", which contains none of the bucket substrings. -/
theorem c3_depth_multiplier_buckets_witness :
    getDepthPriceMultiplier "45 cm" = 1 :=
  c3_depth_multiplier_buckets.2 "45 cm" (by decide)

/-- C4: over form states with non-negative section totals, the final
price is monotonically non-increasing in either discount percentage and
is never negative. -/
theorem c4_final_price_monotone :
    ∀ f : FormData, sectionTotalsNonneg f →
    ∀ d1 d1' d2 d2' : ℚ, 0 ≤ d1 → d1 ≤ d1' → 0 ≤ d2 → d2 ≤ d2' →
      calculateFinalPrice (setDiscounts f ⟨d1', d2⟩) ≤
        calculateFinalPrice (setDiscounts f ⟨d1, d2⟩) ∧
      calculateFinalPrice (setDiscounts f ⟨d1, d2'⟩) ≤
        calculateFinalPrice (setDiscounts f ⟨d1, d2⟩) ∧
      0 ≤ calculateFinalPrice (setDiscounts f ⟨d1, d2⟩) := by
  intro f hf d1 d1' d2 d2' h1 h11 h2 h22
  have hL : 0 ≤ calculateTotalListPrice f := totalListPrice_nonneg f hf
  have hD : 0 ≤ calculateDepthPanelTotal f := depthPanelTotal_nonneg f hf
  have eL : ∀ d : DiscountData, calculateTotalListPrice (setDiscounts f d) =
      calculateTotalListPrice f := fun d => rfl
  have eD : ∀ d : DiscountData, calculateDepthPanelTotal (setDiscounts f d) =
      calculateDepthPanelTotal f := fun d => rfl
  have ep : ∀ d : DiscountData, (setDiscounts f d).discounts = d := fun d => rfl
  refine ⟨?_, ?_, le_max_left 0 _⟩
  · rw [calculateFinalPrice, calculateFinalPrice]
    simp only [eL, eD, ep]
    apply max_le_max le_rfl
    apply sub_le_sub_right
    exact mul_le_mul_of_nonneg_left (by linarith) hL
  · rw [calculateFinalPrice, calculateFinalPrice]
    simp only [eL, eD, ep]
    apply max_le_max le_rfl
    apply sub_le_sub_left
    exact mul_le_mul_of_nonneg_left (by linarith) hD

/-- Witness for C4: the scenario state with the first discount raised from
10% to 20% and the second from 5% to 7%. -/
theorem c4_final_price_monotone_witness :
    sectionTotalsNonneg scenarioForm ∧
    calculateFinalPrice (setDiscounts scenarioForm ⟨20, 5⟩) ≤
      calculateFinalPrice (setDiscounts scenarioForm ⟨10, 5⟩) ∧
    calculateFinalPrice (setDiscounts scenarioForm ⟨10, 7⟩) ≤
      calculateFinalPrice (setDiscounts scenarioForm ⟨10, 5⟩) ∧
    0 ≤ calculateFinalPrice (setDiscounts scenarioForm ⟨10, 5⟩) :=
  ⟨⟨by decide, by decide, by decide, by decide, by decide, by decide, by decide⟩,
   c4_final_price_monotone scenarioForm
     ⟨by decide, by decide, by decide, by decide, by decide, by decide, by decide⟩
     10 20 5 7 (by decide) (by decide) (by decide) (by decide)⟩

/-- C5: unit prices per group kind — depth groups get
base price × depth multiplier × thickness multiplier, panel and hood-panel
groups get base price × 1.25 flat, special-detail and sink options get
fixed flat TRY amounts independent of the base price — and after every
edit of a group the line total equals measurement × unit price. -/
theorem c5_line_item_pricing :
    (∀ (cp : Option String) (tk : String) (g : DepthGroup) (v : String),
       (updateDepthGroupItem cp tk g (.derinlik v)).birimFiyati =
         (if priceIsSet cp then
            parsePriceString (cp.getD "") * getDepthPriceMultiplier v *
              getThicknessPriceMultiplier tk
          else 0)) ∧
    (∀ (cp : Option String) (tk : String) (g : DepthGroup) (field : DepthField),
       (updateDepthGroupItem cp tk g field).toplamFiyat =
         (updateDepthGroupItem cp tk g field).mtul *
           (updateDepthGroupItem cp tk g field).birimFiyati) ∧
    (∀ cp : Option String, panelUnitPrice cp =
       (if priceIsSet cp then parsePriceString (cp.getD "") * (125 / 100) else 0)) ∧
    (∀ (cp : Option String) (g : PanelGroup) (v : ℚ),
       (updatePanelGroupItem cp g (.metrekare v)).birimFiyati =
         (if g.birimFiyati = 0 ∧ priceIsSet cp = true then
            parsePriceString (cp.getD "") * (125 / 100)
          else g.birimFiyati)) ∧
    (∀ (cp : Option String) (g : PanelGroup) (field : PanelField),
       (updatePanelGroupItem cp g field).toplamFiyat =
         (updatePanelGroupItem cp g field).metrekare *
           (updatePanelGroupItem cp g field).birimFiyati) ∧
    (∀ (cp : Option String) (g : DavlumbazGroup) (v : ℚ),
       (updateDavlumbazGroupItem cp g (.metrekare v)).birimFiyati =
         (if g.birimFiyati = 0 ∧ priceIsSet cp = true then
            parsePriceString (cp.getD "") * (125 / 100)
          else g.birimFiyati)) ∧
    (∀ (cp : Option String) (g : DavlumbazGroup) (field : PanelField),
       (updateDavlumbazGroupItem cp g field).toplamFiyat =
         (updateDavlumbazGroupItem cp g field).metrekare *
           (updateDavlumbazGroupItem cp g field).birimFiyati) ∧
    (∀ (cp : Option String) (f : FormData) (field : SupurgelikField),
       (updateSupurgelik cp f field).supurgelik.toplamFiyat =
         (updateSupurgelik cp f field).supurgelik.mtul *
           (updateSupurgelik cp f field).supurgelik.birimFiyati) ∧
    (∀ (f : FormData) (field : SpecialDetailField),
       (updateSpecialDetail f field).specialDetail.toplamFiyat =
         (updateSpecialDetail f field).specialDetail.mtul *
           (updateSpecialDetail f field).specialDetail.birimFiyati) ∧
    (getSpecialDetailPrice "Profil" = 180 ∧ getSpecialDetailPrice "Hera" = 220 ∧
     getSpecialDetailPrice "Hera Klasik" = 200 ∧ getSpecialDetailPrice "Trio" = 280 ∧
     getSpecialDetailPrice "Country" = 240 ∧ getSpecialDetailPrice "Balık Sırtı" = 260 ∧
     getSpecialDetailPrice "M20" = 210 ∧ getSpecialDetailPrice "MQ40" = 300 ∧
     getSpecialDetailPrice "U40" = 320 ∧ getSpecialDetailPrice "PİRAMİT" = 250) ∧
    (getEviyePrice "40 X 40 X h18" = 1500 ∧ getEviyePrice "50 X 40 X h18" = 1800 ∧
     getEviyePrice "60 X 40 X h18" = 2100 ∧ getEviyePrice "70 X 40 X h23" = 2500 ∧
     getEviyePrice "80 X 40 X h23" = 2800) ∧
    (∀ (f : FormData) (v : String),
       (updateEviyeTip f v).eviye.toplamFiyat = getEviyePrice v) := by
  refine ⟨?_, ?_, ?_, ?_, ?_, ?_, ?_, ?_, ?_, ?_, ?_, ?_⟩
  · intro cp tk g v
    simp only [updateDepthGroupItem]
    split_ifs <;> simp
  · intro cp tk g field
    cases field <;> rfl
  · intro cp
    rfl
  · intro cp g v
    simp only [updatePanelGroupItem]
    split_ifs <;> simp
  · intro cp g field
    cases field <;> rfl
  · intro cp g v
    simp only [updateDavlumbazGroupItem]
    split_ifs <;> simp
  · intro cp g field
    cases field <;> rfl
  · intro cp f field
    cases field <;> rfl
  · intro f field
    cases field <;> rfl
  · exact ⟨by decide, by decide, by decide, by decide, by decide, by decide, by decide,
      by decide, by decide, by decide⟩
  · exact ⟨by decide, by decide, by decide, by decide, by decide⟩
  · intro f v
    rfl

/-- C6: a 6th depth group, a 4th panel group, or a 4th hood-panel group is
rejected at the mutation boundary (the whole form state is returned
unchanged), so the bounds 5 / 3 / 3 are invariants of the add
operations. -/
theorem c6_bounded_collections :
    ∀ (f : FormData) (nid : String) (cp : Option String),
      (5 ≤ f.depthGroups.length → addDepthGroup f nid = f) ∧
      (f.depthGroups.length ≤ 5 → (addDepthGroup f nid).depthGroups.length ≤ 5) ∧
      (3 ≤ f.panelGroups.length → addPanelGroup cp f nid = f) ∧
      (f.panelGroups.length ≤ 3 → (addPanelGroup cp f nid).panelGroups.length ≤ 3) ∧
      (3 ≤ f.davlumbazGroups.length → addDavlumbazGroup cp f nid = f) ∧
      (f.davlumbazGroups.length ≤ 3 →
        (addDavlumbazGroup cp f nid).davlumbazGroups.length ≤ 3) := by
  intro f nid cp
  refine ⟨?_, ?_, ?_, ?_, ?_, ?_⟩
  · intro h
    rw [addDepthGroup, if_neg (by omega)]
  · intro h
    rw [addDepthGroup]
    split_ifs with hlen
    · simp
      omega
    · exact h
  · intro h
    rw [addPanelGroup, if_pos h]
  · intro h
    rw [addPanelGroup]
    split_ifs with hlen
    · exact h
    · simp
      omega
  · intro h
    rw [addDavlumbazGroup, if_pos h]
  · intro h
    rw [addDavlumbazGroup]
    split_ifs with hlen
    · exact h
    · simp
      omega

/-- Witness for C6 at the full form state. -/
theorem c6_bounded_collections_witness :
    5 ≤ fullForm.depthGroups.length ∧ addDepthGroup fullForm "d6" = fullForm ∧
    3 ≤ fullForm.panelGroups.length ∧ addPanelGroup none fullForm "p4" = fullForm ∧
    3 ≤ fullForm.davlumbazGroups.length ∧
    addDavlumbazGroup none fullForm "h4" = fullForm :=
  ⟨by decide, (c6_bounded_collections fullForm "d6" none).1 (by decide),
   by decide, (c6_bounded_collections fullForm "p4" none).2.2.1 (by decide),
   by decide, (c6_bounded_collections fullForm "h4" none).2.2.2.2.1 (by decide)⟩

/-- Replacing index `i` leaves the element at `i` toggled. -/
theorem setServiceAt_get_self (c : List LaborServiceItem) (b : Bool) :
    ∀ (i : ℕ) (ss : List LaborServiceItem) (s : LaborServiceItem),
      ss[i]? = some s →
      (setServiceAt c b i ss)[i]? = some (toggleService c s b) := by
  intro i
  induction i with
  | zero =>
    intro ss s h
    cases ss with
    | nil => simp at h
    | cons a t =>
      simp at h
      subst h
      simp [setServiceAt]
  | succ n ih =>
    intro ss s h
    cases ss with
    | nil => simp at h
    | cons a t =>
      simp at h
      simpa [setServiceAt] using ih t s h

/-- Replacing index `i` leaves every other index untouched. -/
theorem setServiceAt_get_ne (c : List LaborServiceItem) (b : Bool) :
    ∀ (i j : ℕ) (ss : List LaborServiceItem), j ≠ i →
      (setServiceAt c b i ss)[j]? = ss[j]? := by
  intro i j ss
  induction ss generalizing i j with
  | nil => intro h; cases i <;> simp [setServiceAt]
  | cons a t ih =>
    intro h
    cases i with
    | zero =>
      cases j with
      | zero => exact absurd rfl h
      | succ m => simp [setServiceAt]
    | succ n =>
      cases j with
      | zero => simp [setServiceAt]
      | succ m =>
        simp only [setServiceAt, List.getElem?_cons_succ]
        exact ih n m (fun hh => h (by rw [hh]))

/-- C7: toggling a labor service on populates its price from the remote
catalog entry of the same name, toggling it off resets the price to 0,
and a toggle at one index changes no other service. -/
theorem c7_labor_toggle (catalog : List LaborServiceItem) (f : FormData) (i : ℕ) (b : Bool) :
    (∀ s c, f.labor.services[i]? = some s →
       catalog.find? (fun c2 => c2.name == s.name) = some c →
       (updateLaborService catalog f i true).labor.services[i]? =
         some { s with isActive := true, price := c.price }) ∧
    (∀ s, f.labor.services[i]? = some s →
       (updateLaborService catalog f i false).labor.services[i]? =
         some { s with isActive := false, price := 0 }) ∧
    (∀ j, j ≠ i →
       (updateLaborService catalog f i b).labor.services[j]? =
         f.labor.services[j]?) := by
  refine ⟨?_, ?_, ?_⟩
  · intro s c hs hc
    have e : (updateLaborService catalog f i true).labor.services =
        setServiceAt catalog true i f.labor.services := rfl
    rw [e, setServiceAt_get_self catalog true i f.labor.services s hs]
    simp [toggleService, hc]
  · intro s hs
    have e : (updateLaborService catalog f i false).labor.services =
        setServiceAt catalog false i f.labor.services := rfl
    rw [e, setServiceAt_get_self catalog false i f.labor.services s hs]
    simp [toggleService]
  · intro j hj
    have e : (updateLaborService catalog f i b).labor.services =
        setServiceAt catalog b i f.labor.services := rfl
    rw [e]
    exact setServiceAt_get_ne catalog b i j f.labor.services hj

/-- Witness for C7 at the first checklist service and the one-entry
catalog. -/
theorem c7_labor_toggle_witness :
    (updateLaborService sheetCatalog scenarioForm 0 true).labor.services[0]? =
      some { name := "TEZGAHA SIFIR EVİYE İŞÇİLİK", isActive := true, price := 250 } ∧
    (updateLaborService sheetCatalog scenarioForm 0 false).labor.services[0]? =
      some { name := "TEZGAHA SIFIR EVİYE İŞÇİLİK", isActive := false, price := 0 } ∧
    (updateLaborService sheetCatalog scenarioForm 0 true).labor.services[1]? =
      scenarioForm.labor.services[1]? :=
  ⟨(c7_labor_toggle sheetCatalog scenarioForm 0 true).1
     { name := "TEZGAHA SIFIR EVİYE İŞÇİLİK", isActive := false, price := 0 }
     { name := "TEZGAHA SIFIR EVİYE İŞÇİLİK", isActive := false, price := 250 }
     (by decide) (by decide),
   (c7_labor_toggle sheetCatalog scenarioForm 0 true).2.1
     { name := "TEZGAHA SIFIR EVİYE İŞÇİLİK", isActive := false, price := 0 }
     (by decide),
   (c7_labor_toggle sheetCatalog scenarioForm 0 true).2.2 1 (by decide)⟩

/-- The 61↔65 remap keeps every measurement (mtul). -/
theorem validateCore_mtul (b : Bool) (gs : List DepthGroup) :
    (validateDepthGroupsCore b gs).map (fun g => g.mtul) = gs.map fun g => g.mtul := by
  rw [validateDepthGroupsCore, List.map_map]
  exact List.map_congr_left fun g hg => rfl

/-- `validateDepthGroups` keeps every measurement (mtul). -/
theorem validate_mtul (products : List Product) (pid : String) (gs : List DepthGroup) :
    (validateDepthGroups products pid gs).map (fun g => g.mtul) = gs.map fun g => g.mtul := by
  rw [validateDepthGroups]
  split_ifs with h
  · rfl
  · exact validateCore_mtul _ gs

/-- C8: switching the selected product remaps the "61 cm" baseline depth
label to "65 cm" when the new product is not Dekton-named (and vice versa
for a Dekton product), leaving every other field of each group — in
particular the measurement — and every other group untouched; the full
product-change update also keeps all measurements. -/
theorem c8_dekton_depth_remap (products : List Product) (pid : String)
    (groups : List DepthGroup) (hpid : ¬ pid = "") :
    (isDektonName ((products.find? (fun p => p.id == pid)).elim "" Product.name) = false →
       validateDepthGroups products pid groups =
         groups.map fun g =>
           { g with derinlik := if g.derinlik = d61Label then d65Label else g.derinlik }) ∧
    (isDektonName ((products.find? (fun p => p.id == pid)).elim "" Product.name) = true →
       validateDepthGroups products pid groups =
         groups.map fun g =>
           { g with derinlik := if g.derinlik = d65Label then d61Label else g.derinlik }) ∧
    (productChangeDepthGroups products pid groups).map (fun g => g.mtul) =
      groups.map fun g => g.mtul := by
  refine ⟨?_, ?_, ?_⟩
  · intro hd
    cases groups with
    | nil => simp [validateDepthGroups]
    | cons g0 gs0 =>
      rw [validateDepthGroups, if_neg (by simp [hpid])]
      rw [validateDepthGroupsCore]
      apply List.map_congr_left
      intro g hg
      rw [hd]
      simp
  · intro hd
    cases groups with
    | nil => simp [validateDepthGroups]
    | cons g0 gs0 =>
      rw [validateDepthGroups, if_neg (by simp [hpid])]
      rw [validateDepthGroupsCore]
      apply List.map_congr_left
      intro g hg
      rw [hd]
      simp
  · rw [productChangeDepthGroups, List.map_map]
    have hcomp : ∀ g : DepthGroup,
        ((fun g => g.mtul) ∘ fun g => { g with birimFiyati := 0, toplamFiyat := 0 }) g =
          g.mtul := fun g => rfl
    rw [List.map_congr_left fun g _ => hcomp g]
    exact validate_mtul products pid groups

/-- Witness for C8: switching to the Dekton product remaps the 65 cm group
to 61 cm, keeps its measurement 3, and leaves the 90 cm group unchanged. -/
theorem c8_dekton_depth_remap_witness :
    validateDepthGroups dektonProducts "p1" wGroups =
      wGroups.map (fun g =>
        { g with derinlik := if g.derinlik = d65Label then d61Label else g.derinlik }) ∧
    validateDepthGroups dektonProducts "p1" wGroups =
      [{ id := "g1", derinlik := "61 cm\x27e kadar", mtul := 3, birimFiyati := 10, toplamFiyat := 30 },
       { id := "g2", derinlik := "90 cm", mtul := 2, birimFiyati := 0, toplamFiyat := 0 }] := by
  have h := (c8_dekton_depth_remap dektonProducts "p1" wGroups (by decide)).2.1 (by decide)
  exact ⟨h, h.trans (by decide)⟩

/-- C9: the skirting auto-selection always lands in one of the four
skirting height bands, and each band is priced as the documented fraction
(1/6, 1/3, 1/2, 1×) of the unit price at h:1.5 cm thickness, which is the
base price × 0.90. -/
theorem c9_skirting_bands :
    (∀ thickness : String, getAutomaticSkirtingBand thickness ∈ skirtingBands) ∧
    getThicknessPriceMultiplier "h:1.5 cm" = 90 / 100 ∧
    (∀ cp : Option String, priceIsSet cp = true →
       getSupurgelikPrice cp "H:05–H:10" =
         parsePriceString (cp.getD "") * getThicknessPriceMultiplier "h:1.5 cm" / 6 ∧
       getSupurgelikPrice cp "H:11–H:20" =
         parsePriceString (cp.getD "") * getThicknessPriceMultiplier "h:1.5 cm" / 3 ∧
       getSupurgelikPrice cp "H:21–H:30" =
         parsePriceString (cp.getD "") * getThicknessPriceMultiplier "h:1.5 cm" / 2 ∧
       getSupurgelikPrice cp "H:31 – (+)" =
         parsePriceString (cp.getD "") * getThicknessPriceMultiplier "h:1.5 cm") := by
  refine ⟨?_, ?_, ?_⟩
  · intro t
    simp only [getAutomaticSkirtingBand]
    split_ifs <;> decide
  · simp +decide [getThicknessPriceMultiplier]
  · intro cp h
    refine ⟨?_, ?_, ?_, ?_⟩ <;> simp +decide [getSupurgelikPrice, h]

/-- Witness for C9 at the concrete color price "1000". -/
theorem c9_skirting_bands_witness :
    priceIsSet (some "1000") = true ∧
    getSupurgelikPrice (some "1000") "H:05–H:10" =
      parsePriceString ((some "1000" : Option String).getD "") *
        getThicknessPriceMultiplier "h:1.5 cm" / 6 :=
  ⟨by decide, (c9_skirting_bands.2.2 (some "1000") (by decide)).1⟩

/-- The toggled service, whenever it ends up inactive, has price 0. -/
theorem toggleService_inactive_price (c : List LaborServiceItem) (s : LaborServiceItem)
    (b : Bool) (h : (toggleService c s b).isActive = false) :
    (toggleService c s b).price = 0 := by
  cases b
  · rfl
  · exfalso
    rw [toggleService] at h
    rcases hf : c.find? (fun c2 => c2.name == s.name) with _ | c2 <;> simp [hf] at h

/-- A toggle preserves "every inactive service has price 0". -/
theorem setServiceAt_inactive_price (c : List LaborServiceItem) (b : Bool) :
    ∀ (i : ℕ) (ss : List LaborServiceItem),
      (∀ s ∈ ss, s.isActive = false → s.price = 0) →
      ∀ s ∈ setServiceAt c b i ss, s.isActive = false → s.price = 0 := by
  intro i
  induction i with
  | zero =>
    intro ss h s hs
    cases ss with
    | nil => simp [setServiceAt] at hs
    | cons a t =>
      rw [setServiceAt] at hs
      rcases List.mem_cons.mp hs with rfl | hmem
      · exact toggleService_inactive_price c a b
      · exact h s (List.mem_cons_of_mem a hmem)
  | succ n ih =>
    intro ss h s hs
    cases ss with
    | nil => simp [setServiceAt] at hs
    | cons a t =>
      rw [setServiceAt] at hs
      rcases List.mem_cons.mp hs with rfl | hmem
      · exact h s (List.mem_cons_self s t)
      · exact ih t (fun x hx hx2 => h x (List.mem_cons_of_mem a hx) hx2) s hmem

/-- One `updateLaborService` call re-establishes the labor invariant. -/
theorem updateLaborService_inv (c : List LaborServiceItem) (f : FormData) (i : ℕ) (b : Bool)
    (h : ∀ s ∈ f.labor.services, s.isActive = false → s.price = 0) :
    LaborInv (updateLaborService c f i b).labor :=
  ⟨rfl, setServiceAt_inactive_price c b i f.labor.services h⟩

/-- The labor invariant is preserved by any sequence of toggles. -/
theorem applyToggles_inv :
    ∀ (ops : List (List LaborServiceItem × ℕ × Bool)) (f : FormData),
      LaborInv f.labor → LaborInv (applyToggles ops f).labor := by
  intro ops
  induction ops with
  | nil => intro f h; exact h
  | cons op t ih =>
    intro f h
    have h1 : LaborInv (updateLaborService op.1 f op.2.1 op.2.2).labor :=
      updateLaborService_inv op.1 f op.2.1 op.2.2 h.2
    have e : applyToggles (op :: t) f =
        applyToggles t (updateLaborService op.1 f op.2.1 op.2.2) := rfl
    rw [e]
    exact ih _ h1

/-- C10: after every `updateLaborService` call the labor total equals the
sum of the prices of exactly the active services, and every inactive
service has price 0 — an invariant that holds in the initial all-inactive
state and is maintained by every sequence of toggles (with arbitrary
catalog snapshots between calls). -/
theorem c10_labor_total_invariant :
    (∀ (catalog : List LaborServiceItem) (f : FormData) (i : ℕ) (b : Bool),
       (updateLaborService catalog f i b).labor.totalPrice =
         laborTotalOf (updateLaborService catalog f i b).labor.services) ∧
    LaborInv initialLabor ∧
    (∀ (ops : List (List LaborServiceItem × ℕ × Bool)) (f : FormData),
       LaborInv f.labor → LaborInv (applyToggles ops f).labor) :=
  ⟨fun c f i b => rfl, ⟨rfl, by decide⟩, applyToggles_inv⟩

/-- Witness for C10: a toggle-on followed by a toggle-off starting from
the scenario state. -/
theorem c10_labor_total_invariant_witness :
    LaborInv scenarioForm.labor ∧
    LaborInv (applyToggles [(sheetCatalog, 0, true), (sheetCatalog, 0, false)]
      scenarioForm).labor :=
  ⟨⟨rfl, by decide⟩,
   c10_labor_total_invariant.2.2 [(sheetCatalog, 0, true), (sheetCatalog, 0, false)]
     scenarioForm ⟨rfl, by decide⟩⟩

end Apps
